import Mathlib

/-!
Shallow embedding of the frontend logic of `src/static/script.js` (stock and
PDF analysis app).  JavaScript strings are Lean `String`s; the string
primitives used by the code (`trim`, `toUpperCase`, `toLowerCase`, `endsWith`,
`includes`) are re-implemented structurally on `List Char` so that they
evaluate inside the kernel.  JavaScript numbers carried by the API responses
(`current_price`, `change_percent`) are modelled as exact rationals; `null` or
absent JSON fields are modelled as `Option`.  The DOM is modelled as an
explicit record of the text contents, CSS classes and visibility flags the
script manipulates, plus the list of timers scheduled with `setTimeout`.
-/

/-- ASCII lower-casing of one character, the effect of JS `toLowerCase` on the
ASCII range (the only range relevant to the keyword tokens and tickers). -/
def chLower (c : Char) : Char :=
  if 65 ≤ c.toNat ∧ c.toNat ≤ 90 then Char.ofNat (c.toNat + 32) else c

/-- ASCII upper-casing of one character, the effect of JS `toUpperCase` on the
ASCII range. -/
def chUpper (c : Char) : Char :=
  if 97 ≤ c.toNat ∧ c.toNat ≤ 122 then Char.ofNat (c.toNat - 32) else c

/-- JS `String.prototype.toLowerCase` (ASCII fragment). -/
def jsToLowerCase (s : String) : String := ⟨s.data.map chLower⟩

/-- JS `String.prototype.toUpperCase` (ASCII fragment). -/
def jsToUpperCase (s : String) : String := ⟨s.data.map chUpper⟩

/-- White space removed by JS `trim` (ASCII fragment). -/
def jsIsSpace (c : Char) : Bool :=
  c == ' ' || c == '\t' || c == '\n' || c == '\r'

/-- JS `String.prototype.trim`. -/
def jsTrim (s : String) : String :=
  ⟨((s.data.dropWhile jsIsSpace).reverse.dropWhile jsIsSpace).reverse⟩

/-- JS `String.prototype.endsWith`. -/
def jsEndsWith (s suffixStr : String) : Bool :=
  suffixStr.data.reverse.isPrefixOf s.data.reverse

/-- `hasInfixCh needle haystack` : does `needle` occur contiguously in
`haystack`?  Structural recursion on the haystack. -/
def hasInfixCh (t : List Char) : List Char → Bool
  | [] => t.isPrefixOf []
  | c :: rest => t.isPrefixOf (c :: rest) || hasInfixCh t rest

/-- JS `String.prototype.includes`. -/
def jsIncludes (s t : String) : Bool := hasInfixCh t.data s.data

/-- JS `v || dflt` where `v` is a possibly-null / possibly-absent string field:
`null`, `undefined` and the empty string are falsy. -/
def jsOrString (v : Option String) (dflt : String) : String :=
  match v with
  | none => dflt
  | some s => if s = "" then dflt else s

/-- JS `v || dflt` where `v` is a possibly-null numeric field: `null`,
`undefined` and `0` are falsy. -/
def jsOrNum (v : Option Rat) (dflt : Rat) : Rat :=
  match v with
  | none => dflt
  | some x => if x = 0 then dflt else x

/-- JS `Number.prototype.toFixed(2)` on an exact rational: round to the
nearest hundredth (half away from the floor) and print with exactly two
decimals.  `⌊q*100 + 1/2⌋` is computed as `fdiv (200*num + den) (2*den)`. -/
def jsToFixed2 (q : Rat) : String :=
  let n : Int := Int.fdiv (200 * q.num + (q.den : Int)) (2 * (q.den : Int))
  let a := n.natAbs
  (if n < 0 then "-" else "") ++
    (Nat.toDigits 10 (a / 100)).asString ++ "." ++
    (if a % 100 < 10 then "0" else "") ++ (Nat.toDigits 10 (a % 100)).asString

/-- Decimal rendering of a natural number (JS template interpolation). -/
def natToStr (n : Nat) : String := (Nat.toDigits 10 n).asString

/-- An uploaded file as seen by the script: its `name` and `size` in bytes. -/
structure UFile where
  name : String
  size : Nat
deriving DecidableEq

/-- One element of the `news` array of a `/api/analyze` response. -/
structure NewsItem where
  title : String
  link : String
  source : String
  published : String
deriving DecidableEq

/-- Body of a successful `/api/analyze` response.  `current_price` and
`change_percent` may be JSON `null`; `news` may be `null` or missing. -/
structure AnalyzeData where
  ticker : String
  current_price : Option Rat
  change_percent : Option Rat
  summary : String
  sentiment : String
  news : Option (List NewsItem)
deriving DecidableEq

/-- Body of a successful `/api/analyze-pdf` or `/api/analyze-pdf-with-stock`
response. -/
structure PdfData where
  filename : String
  pages : Option Nat
  ticker : Option String
  analysis : String
deriving DecidableEq

/-- What the `newsList` element currently renders: the
"No recent news available" placeholder or a list of news items. -/
inductive NewsRender
  | placeholder
  | items (l : List NewsItem)
deriving DecidableEq

/-- A callback scheduled with `setTimeout`; the only one in the script hides
the error element. -/
inductive TimerTask
  | hideErrorTask
deriving DecidableEq

/-- The DOM elements whose visibility (`hidden` CSS class) the script toggles
through `showElement` / `hideElement`. -/
inductive ElemId
  | errorElem
  | loadingElem
  | resultsElem
  | pdfResultsElem
deriving DecidableEq

/-- The DOM and script state touched by the embedded functions. -/
structure AppState where
  errorVisible : Bool := false
  errorText : String := ""
  loadingVisible : Bool := false
  resultsVisible : Bool := false
  pdfResultsVisible : Bool := false
  analyzeBtnDisabled : Bool := false
  analyzePdfBtnDisabled : Bool := true
  selectedFile : Option UFile := none
  fileNameText : String := ""
  stockNameText : String := ""
  stockPriceText : String := ""
  stockChangeText : String := ""
  stockChangeClass : String := ""
  sentimentText : String := ""
  sentimentClass : String := ""
  aiSummaryText : String := ""
  newsView : NewsRender := .items []
  pdfFileNameText : String := ""
  pdfPagesText : String := ""
  pdfAnalysisText : String := ""
  timers : List (Nat × TimerTask) := []
deriving DecidableEq

/-- Set the visibility flag of one element. -/
def setVisible (id : ElemId) (b : Bool) (s : AppState) : AppState :=
  match id with
  | .errorElem => { s with errorVisible := b }
  | .loadingElem => { s with loadingVisible := b }
  | .resultsElem => { s with resultsVisible := b }
  | .pdfResultsElem => { s with pdfResultsVisible := b }

/-- `showElement(id)`: remove the `hidden` class. -/
def showElement (id : ElemId) (s : AppState) : AppState := setVisible id true s

/-- `hideElement(id)`: add the `hidden` class. -/
def hideElement (id : ElemId) (s : AppState) : AppState := setVisible id false s

/-- `hideElements(ids)`. -/
def hideElements (ids : List ElemId) (s : AppState) : AppState :=
  ids.foldl (fun t i => hideElement i t) s

/-- What a fired timer callback does to the state. -/
def runTimerTask : TimerTask → AppState → AppState
  | .hideErrorTask, s => hideElement .errorElem s

/-- `showError(message)`: fill the error element, show it, and schedule a
`setTimeout` of 5000 ms that hides it again. -/
def showError (msg : String) (s : AppState) : AppState :=
  let s1 := showElement .errorElem { s with errorText := msg }
  { s1 with timers := s1.timers ++ [(5000, TimerTask.hideErrorTask)] }

/-- `displayNews(news)`: empty the list and render either the placeholder
paragraph (when `news` is falsy or has length 0) or the items. -/
def displayNews (news : Option (List NewsItem)) (s : AppState) : AppState :=
  match news with
  | none => { s with newsView := .placeholder }
  | some l =>
    if l.length = 0 then { s with newsView := .placeholder }
    else { s with newsView := .items l }

/-- `displayResults(data)`. -/
def displayResults (data : AnalyzeData) (s : AppState) : AppState :=
  let priceStr := jsOrString (data.current_price.map jsToFixed2) "N/A"
  let change := jsOrNum data.change_percent 0
  let s1 := { s with
    stockNameText := data.ticker
    stockPriceText := "$" ++ priceStr
    stockChangeText := (if 0 ≤ change then "+" else "") ++ jsToFixed2 change ++ "%"
    stockChangeClass := "change " ++ (if 0 ≤ change then "positive" else "negative")
    sentimentText := data.sentiment
    sentimentClass := "sentiment-badge " ++ data.sentiment
    aiSummaryText := data.summary }
  showElement .resultsElem (displayNews data.news s1)

/-- Outcome of the `fetch` call inside a try block, as observed by the
script: a 2xx response with parsed JSON `data`, a non-2xx response whose JSON
body carries an optional `detail` field, or a thrown failure (network error)
carrying the thrown message. -/
inductive FetchOutcome (α : Type)
  | ok (data : α)
  | httpError (detail : Option String)
  | threw (msg : String)

/-- `analyzeStock()`.  Parameters: the current value of the ticker input box
and the outcome of the `fetch('/api/analyze')` call (used only if the fetch is
reached).  Returns the final state paired with the ticker string sent in the
request body, `none` when no request was issued. -/
def analyzeStock (inputValue : String) (outcome : FetchOutcome AnalyzeData)
    (s : AppState) : AppState × Option String :=
  let ticker := jsToUpperCase (jsTrim inputValue)
  if ticker = "" then
    (showError "Please enter a ticker symbol" s, none)
  else
    let s1 := showElement .loadingElem (hideElements [.resultsElem, .errorElem] s)
    let s2 := { s1 with analyzeBtnDisabled := true }
    let s3 :=
      match outcome with
      | .ok data => displayResults data s2
      | .httpError detail =>
        let msg := jsOrString detail "Analysis failed"
        showError (jsOrString (some msg) "Failed to analyze stock. Please try again.") s2
      | .threw msg =>
        showError (jsOrString (some msg) "Failed to analyze stock. Please try again.") s2
    let s4 := { hideElement .loadingElem s3 with analyzeBtnDisabled := false }
    (s4, some ticker)

/-- `handleFileSelect(event)`.  Parameter: `event.target.files[0]`, absent
when no file was chosen. -/
def handleFileSelect (file? : Option UFile) (s : AppState) : AppState :=
  match file? with
  | none => s
  | some file =>
    if jsEndsWith file.name ".pdf" = false then
      showError "Please select a PDF file" s
    else if file.size > 10 * 1024 * 1024 then
      showError "File too large. Maximum size is 10MB" s
    else
      { s with selectedFile := some file
               fileNameText := file.name
               analyzePdfBtnDisabled := false }

/-- Modelled from the spec: the value of the `analysisType` select element is
defined in `static/index.html`, which is not among the provided sources; per
the spec the selectable analysis types are exactly summary, sentiment and
financial. -/
inductive AnalysisType
  | summary
  | sentiment
  | financial
deriving DecidableEq

/-- The `value` string the select element carries for each option. -/
def AnalysisType.toStr : AnalysisType → String
  | .summary => "summary"
  | .sentiment => "sentiment"
  | .financial => "financial"

/-- A multipart request issued by `analyzePDF`: either
`POST /api/analyze-pdf` with exactly the fields `file` and `analysis_type`,
or `POST /api/analyze-pdf-with-stock` with exactly the fields `file` and
`ticker`. -/
inductive PdfRequest
  | pdfPlain (file : UFile) (analysis_type : String)
  | pdfWithStock (file : UFile) (ticker : String)
deriving DecidableEq

/-- The shared tail of `analyzePDF` once a fetch happened: the catch over the
response outcome. -/
def pdfOutcomeStep (outcome : FetchOutcome PdfData) (s : AppState) : AppState :=
  match outcome with
  | .ok data =>
    let pagesText :=
      match data.pages with
      | some n => if n = 0 then "" else "📑 " ++ natToStr n ++ " pages"
      | none => ""
    let pagesText2 :=
      match data.ticker with
      | some t => if t = "" then pagesText else pagesText ++ " | 📈 " ++ t
      | none => pagesText
    showElement .pdfResultsElem
      { s with pdfFileNameText := "📄 " ++ data.filename
               pdfPagesText := pagesText2
               pdfAnalysisText := data.analysis }
  | .httpError detail =>
    let msg := jsOrString detail "PDF analysis failed"
    showError (jsOrString (some msg) "Failed to analyze PDF. Please try again.") s
  | .threw msg =>
    showError (jsOrString (some msg) "Failed to analyze PDF. Please try again.") s

/-- The `finally` block of `analyzePDF`. -/
def pdfFinallyStep (s : AppState) : AppState :=
  { hideElement .loadingElem s with analyzePdfBtnDisabled := false }

/-- `analyzePDF()`.  Parameters: the checked state of the `useStockContext`
checkbox, the current value of the `contextTicker` input, the selected
analysis type, and the outcome of the `fetch` (used only when a fetch is
reached).  Returns the final state paired with the request issued, `none`
when no request was issued. -/
def analyzePDF (useStockContext : Bool) (contextTickerValue : String)
    (analysisType : AnalysisType) (outcome : FetchOutcome PdfData)
    (s : AppState) : AppState × Option PdfRequest :=
  match s.selectedFile with
  | none => (showError "Please select a PDF file first" s, none)
  | some file =>
    let s1 := showElement .loadingElem (hideElements [.pdfResultsElem, .errorElem] s)
    let s2 := { s1 with analyzePdfBtnDisabled := true }
    if useStockContext then
      let ticker := jsToUpperCase (jsTrim contextTickerValue)
      if ticker = "" then
        let s3 := showError
          (jsOrString (some "Please enter a ticker symbol for stock context")
            "Failed to analyze PDF. Please try again.") s2
        (pdfFinallyStep s3, none)
      else
        (pdfFinallyStep (pdfOutcomeStep outcome s2),
          some (.pdfWithStock file ticker))
    else
      (pdfFinallyStep (pdfOutcomeStep outcome s2),
        some (.pdfPlain file analysisType.toStr))

/-- Modelled from the spec: the backend Result Normalizer (app/llm.py, not
among the provided sources).  Per §4.5 it scans the raw model text
case-insensitively for the tokens positive, negative, neutral in that
precedence order, first match winning, and defaults to Neutral when none
match. -/
def normalizeSentiment (raw : String) : String :=
  let t := jsToLowerCase raw
  if jsIncludes t "positive" then "Positive"
  else if jsIncludes t "negative" then "Negative"
  else if jsIncludes t "neutral" then "Neutral"
  else "Neutral"

/-- C1 counterexample: a 0-byte file named `empty.pdf` passes the client-side
validation in `handleFileSelect` — it is recorded as the selected file, its
name is displayed, the PDF-analyze button is enabled, and no error is shown —
contradicting the part of the claim that says a 0-byte upload is rejected at
validation. -/
theorem C1_zero_byte_accepted :
    handleFileSelect (some ⟨"empty.pdf", 0⟩) {} =
      { ({} : AppState) with
        selectedFile := some ⟨"empty.pdf", 0⟩
        fileNameText := "empty.pdf"
        analyzePdfBtnDisabled := false } ∧
    (handleFileSelect (some ⟨"empty.pdf", 0⟩) {}).errorVisible = false := by
  decide

/-- C1 (amended): a file passed to `handleFileSelect` is accepted (recorded as
the selected file, its name displayed, the PDF-analyze button enabled) exactly
when its name ends with ".pdf" and its size is at most 10*1024*1024 bytes; a
file failing either condition triggers an error message and is not accepted.
In particular a non-PDF upload is rejected, but a 0-byte file named `*.pdf`
passes this validation (size 0 ≤ 10 MiB). -/
theorem C1_file_validation (f : UFile) (s : AppState) :
    (jsEndsWith f.name ".pdf" = true ∧ f.size ≤ 10 * 1024 * 1024 →
      handleFileSelect (some f) s =
        { s with selectedFile := some f, fileNameText := f.name,
                 analyzePdfBtnDisabled := false }) ∧
    (¬ (jsEndsWith f.name ".pdf" = true ∧ f.size ≤ 10 * 1024 * 1024) →
      (handleFileSelect (some f) s).errorVisible = true ∧
      (handleFileSelect (some f) s).selectedFile = s.selectedFile ∧
      (handleFileSelect (some f) s).analyzePdfBtnDisabled = s.analyzePdfBtnDisabled) := by
  constructor
  · rintro ⟨h1, h2⟩
    simp [handleFileSelect, h1, Nat.not_lt.2 h2]
  · intro h
    by_cases h1 : jsEndsWith f.name ".pdf" = true
    · have h2 : 10 * 1024 * 1024 < f.size := by
        rcases Nat.lt_or_ge (10 * 1024 * 1024) f.size with hlt | hge
        · exact hlt
        · exact absurd ⟨h1, hge⟩ h
      simp [handleFileSelect, h1, h2, showError, showElement, setVisible]
    · have h1f : jsEndsWith f.name ".pdf" = false := by
        cases hb : jsEndsWith f.name ".pdf"
        · rfl
        · exact absurd hb h1
      simp [handleFileSelect, h1f, showError, showElement, setVisible]

/-- C1 witness: the accepting branch of `C1_file_validation` applied to a
concrete valid file. -/
theorem C1_file_validation_witness :
    handleFileSelect (some ⟨"report.pdf", 5⟩) {} =
      { ({} : AppState) with
        selectedFile := some (⟨"report.pdf", 5⟩ : UFile)
        fileNameText := "report.pdf"
        analyzePdfBtnDisabled := false } :=
  (C1_file_validation ⟨"report.pdf", 5⟩ {}).1 (by decide)

/-- C2 counterexample: `analyzeStock` on the input "toolongticker!" issues a
request whose body ticker is "TOOLONGTICKER!", which is 14 characters long and
not alphanumeric — contradicting the claim that a request is issued only if
the ticker is alphanumeric and at most 10 characters. -/
theorem C2_no_alnum_length_check :
    (analyzeStock "toolongticker!" (FetchOutcome.threw "x") {}).2 =
      some "TOOLONGTICKER!" ∧
    ¬ ("TOOLONGTICKER!".length ≤ 10 ∧
        "TOOLONGTICKER!".data.all Char.isAlphanum = true) := by
  constructor
  · decide
  · decide

/-- C2 (amended): the ticker submitted in the body of POST /api/analyze is the
input value trimmed of whitespace and uppercase-normalized, and a request is
issued if and only if this ticker is non-empty; an empty ticker produces an
error message and no request.  No alphanumeric or length check is performed
client-side. -/
theorem C2_ticker_request (input : String) (outcome : FetchOutcome AnalyzeData)
    (s : AppState) :
    (jsToUpperCase (jsTrim input) ≠ "" →
      (analyzeStock input outcome s).2 = some (jsToUpperCase (jsTrim input))) ∧
    (jsToUpperCase (jsTrim input) = "" →
      (analyzeStock input outcome s).2 = none ∧
      (analyzeStock input outcome s).1 =
        showError "Please enter a ticker symbol" s) := by
  constructor
  · intro h
    simp [analyzeStock, h]
  · intro h
    simp [analyzeStock, h]

/-- C2 witness: `C2_ticker_request` at the input "  aapl " — the request
carries "AAPL" — and at the blank input "   " — no request, error shown. -/
theorem C2_ticker_request_witness :
    (analyzeStock "  aapl " (FetchOutcome.threw "x") {}).2 = some "AAPL" ∧
    (analyzeStock "   " (FetchOutcome.threw "x") {}).2 = none :=
  ⟨by
    have h := (C2_ticker_request "  aapl " (FetchOutcome.threw "x") {}).1 (by decide)
    simpa using h,
   ((C2_ticker_request "   " (FetchOutcome.threw "x") {}).2 (by decide)).1⟩

/-- C3: with a file selected, `analyzePDF` with the stock-context option off
sends to POST /api/analyze-pdf exactly the fields file and analysis_type,
whose value is one of summary, sentiment, financial; with the option on and a
non-empty trimmed-uppercased context ticker it sends to
POST /api/analyze-pdf-with-stock exactly the fields file and ticker; with the
option on and an empty ticker no request is issued and the
stock-context-requires-a-ticker error is shown. -/
theorem C3_pdf_requests (useCtx : Bool) (ctxVal : String) (atype : AnalysisType)
    (outcome : FetchOutcome PdfData) (s : AppState) (f : UFile)
    (hf : s.selectedFile = some f) :
    (useCtx = false →
      (analyzePDF useCtx ctxVal atype outcome s).2 =
        some (PdfRequest.pdfPlain f atype.toStr) ∧
      (atype.toStr = "summary" ∨ atype.toStr = "sentiment" ∨
        atype.toStr = "financial")) ∧
    (useCtx = true → jsToUpperCase (jsTrim ctxVal) ≠ "" →
      (analyzePDF useCtx ctxVal atype outcome s).2 =
        some (PdfRequest.pdfWithStock f (jsToUpperCase (jsTrim ctxVal)))) ∧
    (useCtx = true → jsToUpperCase (jsTrim ctxVal) = "" →
      (analyzePDF useCtx ctxVal atype outcome s).2 = none ∧
      (analyzePDF useCtx ctxVal atype outcome s).1.errorVisible = true ∧
      (analyzePDF useCtx ctxVal atype outcome s).1.errorText =
        "Please enter a ticker symbol for stock context") := by
  refine ⟨?_, ?_, ?_⟩
  · intro h
    subst h
    constructor
    · simp [analyzePDF, hf]
    · cases atype <;> simp [AnalysisType.toStr]
  · intro h ht
    subst h
    simp [analyzePDF, hf, ht]
  · intro h ht
    subst h
    refine ⟨by simp [analyzePDF, hf, ht], ?_, ?_⟩ <;>
      simp [analyzePDF, hf, ht, pdfFinallyStep, jsOrString, showError,
        showElement, hideElement, setVisible]

/-- C3 witness: `C3_pdf_requests` at a concrete state with a selected file,
in the stock-context configuration with ticker " msft ". -/
theorem C3_pdf_requests_witness :
    (analyzePDF true " msft " AnalysisType.summary (FetchOutcome.threw "x")
      { selectedFile := some ⟨"a.pdf", 3⟩ }).2 =
      some (PdfRequest.pdfWithStock ⟨"a.pdf", 3⟩ "MSFT") := by
  have h := ((C3_pdf_requests true " msft " AnalysisType.summary
    (FetchOutcome.threw "x") { selectedFile := some ⟨"a.pdf", 3⟩ }
    ⟨"a.pdf", 3⟩ rfl).2.1 rfl (by decide))
  simpa using h

/-- C4: on every successful /api/analyze response, independently, a null
current_price is rendered as the text dollar-N/A, and a null or empty news
list is rendered as the placeholder; unconditionally — so in particular for
any partial quote/news combination — the results panel is shown and the error
element and pending timers are untouched (partial data never takes the error
path). -/
theorem C4_partial_data (data : AnalyzeData) (s : AppState) :
    (data.current_price = none →
      (displayResults data s).stockPriceText = "$N/A") ∧
    ((data.news = none ∨ data.news = some []) →
      (displayResults data s).newsView = NewsRender.placeholder) ∧
    (displayResults data s).resultsVisible = true ∧
    (displayResults data s).errorVisible = s.errorVisible ∧
    (displayResults data s).errorText = s.errorText ∧
    (displayResults data s).timers = s.timers := by
  refine ⟨?_, ?_, ?_, ?_, ?_, ?_⟩
  · intro hp
    cases hn : data.news with
    | none =>
      simp [displayResults, displayNews, hn, hp, jsOrString, showElement,
        setVisible]
    | some l =>
      by_cases hl : l.length = 0 <;>
        simp [displayResults, displayNews, hn, hl, hp, jsOrString,
          showElement, setVisible]
  · intro hnw
    rcases hnw with hn | hn <;>
      simp [displayResults, displayNews, hn, showElement, setVisible]
  · cases hn : data.news with
    | none => simp [displayResults, displayNews, hn, showElement, setVisible]
    | some l =>
      by_cases hl : l.length = 0 <;>
        simp [displayResults, displayNews, hn, hl, showElement, setVisible]
  · cases hn : data.news with
    | none => simp [displayResults, displayNews, hn, showElement, setVisible]
    | some l =>
      by_cases hl : l.length = 0 <;>
        simp [displayResults, displayNews, hn, hl, showElement, setVisible]
  · cases hn : data.news with
    | none => simp [displayResults, displayNews, hn, showElement, setVisible]
    | some l =>
      by_cases hl : l.length = 0 <;>
        simp [displayResults, displayNews, hn, hl, showElement, setVisible]
  · cases hn : data.news with
    | none => simp [displayResults, displayNews, hn, showElement, setVisible]
    | some l =>
      by_cases hl : l.length = 0 <;>
        simp [displayResults, displayNews, hn, hl, showElement, setVisible]

/-- C4 witness: `C4_partial_data` on a mixed partial response — null price
with a non-empty news list — for the price conditional, and on a response
with a present price and null news for the placeholder conditional. -/
theorem C4_partial_data_witness :
    (displayResults
      ⟨"T", none, none, "s", "Neutral", some [⟨"t", "l", "src", "today"⟩]⟩
      {}).stockPriceText = "$N/A" ∧
    (displayResults ⟨"T", some 0, none, "s", "Neutral", none⟩ {}).newsView
        = NewsRender.placeholder :=
  ⟨(C4_partial_data
      ⟨"T", none, none, "s", "Neutral", some [⟨"t", "l", "src", "today"⟩]⟩
      {}).1 rfl,
   (C4_partial_data ⟨"T", some 0, none, "s", "Neutral", none⟩ {}).2.1
      (Or.inl rfl)⟩

/-- C5: the sentiment normalizer (modelled from the spec, backend source not
provided) always yields one of Positive, Neutral, Negative; any text
containing the token positive case-insensitively — in particular text
containing both positive and negative — yields Positive, and text containing
none of the three tokens yields Neutral. -/
theorem C5_sentiment_normalization (raw : String) :
    (normalizeSentiment raw = "Positive" ∨ normalizeSentiment raw = "Neutral" ∨
      normalizeSentiment raw = "Negative") ∧
    (jsIncludes (jsToLowerCase raw) "positive" = true →
      normalizeSentiment raw = "Positive") ∧
    (jsIncludes (jsToLowerCase raw) "positive" = true ∧
      jsIncludes (jsToLowerCase raw) "negative" = true →
      normalizeSentiment raw = "Positive") ∧
    (jsIncludes (jsToLowerCase raw) "positive" = false →
      jsIncludes (jsToLowerCase raw) "negative" = false →
      jsIncludes (jsToLowerCase raw) "neutral" = false →
      normalizeSentiment raw = "Neutral") := by
  refine ⟨?_, ?_, ?_, ?_⟩
  · by_cases h1 : jsIncludes (jsToLowerCase raw) "positive" = true
    · simp [normalizeSentiment, h1]
    · by_cases h2 : jsIncludes (jsToLowerCase raw) "negative" = true
      · simp [normalizeSentiment, h1, h2]
      · by_cases h3 : jsIncludes (jsToLowerCase raw) "neutral" = true <;>
          simp [normalizeSentiment, h1, h2, h3]
  · intro h
    simp [normalizeSentiment, h]
  · rintro ⟨h, -⟩
    simp [normalizeSentiment, h]
  · intro h1 h2 h3
    simp [normalizeSentiment, h1, h2, h3]

/-- C5 witness: `C5_sentiment_normalization` on text containing both tokens
and on text containing none. -/
theorem C5_sentiment_normalization_witness :
    normalizeSentiment "Overall POSITIVE but also negative" = "Positive" ∧
    normalizeSentiment "nothing to see" = "Neutral" :=
  ⟨(C5_sentiment_normalization "Overall POSITIVE but also negative").2.2.1
      (by decide),
   (C5_sentiment_normalization "nothing to see").2.2.2
      (by decide) (by decide) (by decide)⟩

/-- C6: for a non-2xx response to POST /api/analyze reached with a non-empty
ticker, the message `analyzeStock` displays is exactly the body detail string
when present and non-empty, and the fixed "Analysis failed" otherwise. -/
theorem C6_analyze_error_message (input : String) (detail : Option String)
    (s : AppState) (h : jsToUpperCase (jsTrim input) ≠ "") :
    (analyzeStock input (FetchOutcome.httpError detail) s).1.errorVisible = true ∧
    (analyzeStock input (FetchOutcome.httpError detail) s).1.errorText =
      (match detail with
       | some d => if d = "" then "Analysis failed" else d
       | none => "Analysis failed") := by
  cases detail with
  | none =>
    simp [analyzeStock, h, jsOrString, showError, showElement, hideElement,
      setVisible, hideElements]
  | some d =>
    by_cases hd : d = "" <;>
      simp [analyzeStock, h, hd, jsOrString, showError, showElement,
        hideElement, setVisible, hideElements]

/-- C6 witness: `C6_analyze_error_message` at a response with
detail "boom" and at a response with an empty detail. -/
theorem C6_analyze_error_message_witness :
    (analyzeStock "  aapl " (FetchOutcome.httpError (some "boom")) {}).1.errorText
        = "boom" ∧
    (analyzeStock "  aapl " (FetchOutcome.httpError (some "")) {}).1.errorText
        = "Analysis failed" :=
  ⟨by
    have h := (C6_analyze_error_message "  aapl " (some "boom") {} (by decide)).2
    simpa using h,
   by
    have h := (C6_analyze_error_message "  aapl " (some "") {} (by decide)).2
    simpa using h⟩

/-- C7: `showError` makes the error element visible with the given message and
schedules a single 5000 ms timer whose callback hides the error element again
(and changes nothing else about the error text), so dismissal is automatic. -/
theorem C7_showError_autodismiss (msg : String) (s : AppState) :
    (showError msg s).errorVisible = true ∧
    (showError msg s).errorText = msg ∧
    (showError msg s).timers = s.timers ++ [(5000, TimerTask.hideErrorTask)] ∧
    ∀ t : AppState, (runTimerTask TimerTask.hideErrorTask t).errorVisible = false ∧
      (runTimerTask TimerTask.hideErrorTask t).errorText = t.errorText := by
  refine ⟨?_, ?_, ?_, ?_⟩ <;>
    simp [showError, showElement, hideElement, setVisible, runTimerTask]

/-- C8: when `analyzeStock` runs with a non-empty ticker and when `analyzePDF`
runs with a file selected, whatever the fetch outcome (success, non-2xx or
thrown), the final state has the loading indicator hidden and the
corresponding analyze button re-enabled. -/
theorem C8_loading_reset (input : String) (oc1 : FetchOutcome AnalyzeData)
    (useCtx : Bool) (ctxVal : String) (atype : AnalysisType)
    (oc2 : FetchOutcome PdfData) (s s2 : AppState) (f : UFile)
    (h1 : jsToUpperCase (jsTrim input) ≠ "") (h2 : s2.selectedFile = some f) :
    (analyzeStock input oc1 s).1.loadingVisible = false ∧
    (analyzeStock input oc1 s).1.analyzeBtnDisabled = false ∧
    (analyzePDF useCtx ctxVal atype oc2 s2).1.loadingVisible = false ∧
    (analyzePDF useCtx ctxVal atype oc2 s2).1.analyzePdfBtnDisabled = false := by
  refine ⟨?_, ?_, ?_, ?_⟩
  · simp [analyzeStock, h1, hideElement, setVisible]
  · simp [analyzeStock, h1, hideElement, setVisible]
  · cases useCtx <;>
      by_cases ht : jsToUpperCase (jsTrim ctxVal) = "" <;>
        simp [analyzePDF, h2, ht, pdfFinallyStep, hideElement, setVisible]
  · cases useCtx <;>
      by_cases ht : jsToUpperCase (jsTrim ctxVal) = "" <;>
        simp [analyzePDF, h2, ht, pdfFinallyStep, hideElement, setVisible]

/-- C8 witness: `C8_loading_reset` at concrete inputs, with thrown fetches. -/
theorem C8_loading_reset_witness :
    (analyzeStock "  aapl " (FetchOutcome.threw "x") {}).1.loadingVisible = false ∧
    (analyzePDF true "  " AnalysisType.summary (FetchOutcome.threw "y")
      { selectedFile := some ⟨"a.pdf", 3⟩ }).1.analyzePdfBtnDisabled = false :=
  ⟨(C8_loading_reset "  aapl " (FetchOutcome.threw "x") true "  "
      AnalysisType.summary (FetchOutcome.threw "y") {}
      { selectedFile := some ⟨"a.pdf", 3⟩ } ⟨"a.pdf", 3⟩ (by decide) rfl).1,
   (C8_loading_reset "  aapl " (FetchOutcome.threw "x") true "  "
      AnalysisType.summary (FetchOutcome.threw "y") {}
      { selectedFile := some ⟨"a.pdf", 3⟩ } ⟨"a.pdf", 3⟩ (by decide) rfl).2.2.2⟩

/-- C9: when `handleFileSelect` rejects a file (name not ending in ".pdf" or
size over 10 MiB), the previously selected file, the displayed file name and
the disabled state of the PDF-analyze button are all left unchanged. -/
theorem C9_reject_preserves_selection (f : UFile) (s : AppState)
    (h : ¬ (jsEndsWith f.name ".pdf" = true ∧ f.size ≤ 10 * 1024 * 1024)) :
    (handleFileSelect (some f) s).selectedFile = s.selectedFile ∧
    (handleFileSelect (some f) s).fileNameText = s.fileNameText ∧
    (handleFileSelect (some f) s).analyzePdfBtnDisabled =
      s.analyzePdfBtnDisabled := by
  by_cases h1 : jsEndsWith f.name ".pdf" = true
  · have h2 : 10 * 1024 * 1024 < f.size := by
      rcases Nat.lt_or_ge (10 * 1024 * 1024) f.size with hlt | hge
      · exact hlt
      · exact absurd ⟨h1, hge⟩ h
    simp [handleFileSelect, h1, h2, showError, showElement, setVisible]
  · have h1f : jsEndsWith f.name ".pdf" = false := by
      cases hb : jsEndsWith f.name ".pdf"
      · rfl
      · exact absurd hb h1
    simp [handleFileSelect, h1f, showError, showElement, setVisible]

/-- C9 witness: `C9_reject_preserves_selection` on a non-PDF file offered to a
state that already holds a selection. -/
theorem C9_reject_preserves_selection_witness :
    (handleFileSelect (some ⟨"notes.txt", 5⟩)
      { selectedFile := some ⟨"old.pdf", 7⟩
        fileNameText := "old.pdf"
        analyzePdfBtnDisabled := false }).selectedFile =
      some (⟨"old.pdf", 7⟩ : UFile) :=
  (C9_reject_preserves_selection ⟨"notes.txt", 5⟩
    { selectedFile := some ⟨"old.pdf", 7⟩
      fileNameText := "old.pdf"
      analyzePdfBtnDisabled := false } (by decide)).1

/-- C10: `displayResults` renders a null change_percent identically to a zero
change — text "+0.00%" with the class string "change positive" — and any
change at least 0 gets the plus prefix and the positive class. -/
theorem C10_change_rendering (data : AnalyzeData) (s : AppState) :
    (data.change_percent = none →
      (displayResults data s).stockChangeText = "+0.00%" ∧
      (displayResults data s).stockChangeClass = "change positive") ∧
    (data.change_percent = some 0 →
      (displayResults data s).stockChangeText = "+0.00%" ∧
      (displayResults data s).stockChangeClass = "change positive") ∧
    (∀ q : Rat, data.change_percent = some q → 0 ≤ q →
      (displayResults data s).stockChangeText = "+" ++ jsToFixed2 q ++ "%" ∧
      (displayResults data s).stockChangeClass = "change positive") := by
  have h0 : jsToFixed2 0 = "0.00" := by decide
  refine ⟨?_, ?_, ?_⟩
  · intro h
    cases hn : data.news with
    | none =>
      simp [displayResults, displayNews, hn, h, jsOrNum, showElement,
        setVisible, h0]
    | some l =>
      by_cases hl : l.length = 0 <;>
        simp [displayResults, displayNews, hn, hl, h, jsOrNum, showElement,
          setVisible, h0]
  · intro h
    cases hn : data.news with
    | none =>
      simp [displayResults, displayNews, hn, h, jsOrNum, showElement,
        setVisible, h0]
    | some l =>
      by_cases hl : l.length = 0 <;>
        simp [displayResults, displayNews, hn, hl, h, jsOrNum, showElement,
          setVisible, h0]
  · intro q h hq
    by_cases hz : q = 0
    · subst hz
      cases hn : data.news with
      | none =>
        simp [displayResults, displayNews, hn, h, jsOrNum, showElement,
          setVisible, h0]
      | some l =>
        by_cases hl : l.length = 0 <;>
          simp [displayResults, displayNews, hn, hl, h, jsOrNum, showElement,
            setVisible, h0]
    · cases hn : data.news with
      | none =>
        simp [displayResults, displayNews, hn, h, jsOrNum, hz, hq,
          showElement, setVisible]
      | some l =>
        by_cases hl : l.length = 0 <;>
          simp [displayResults, displayNews, hn, hl, h, jsOrNum, hz, hq,
            showElement, setVisible]

/-- C10 witness: `C10_change_rendering` on a response with null
change_percent. -/
theorem C10_change_rendering_witness :
    (displayResults ⟨"T", none, none, "s", "Neutral", none⟩ {}).stockChangeText
        = "+0.00%" ∧
    (displayResults ⟨"T", none, none, "s", "Neutral", none⟩ {}).stockChangeClass
        = "change positive" :=
  (C10_change_rendering ⟨"T", none, none, "s", "Neutral", none⟩ {}).1 rfl
